import Mathlib

/-!
Shallow embedding of the movie CRUD service (Go, `main` package).

The program keeps a single global slice `movies []Movie` and five HTTP
handlers that read or mutate it.  Each handler is embedded as a pure
function from the current collection (and the request data the router or
the JSON decoder hands it) to the pair of the collection after the request
and the response body the handler writes.  A response body is
`Option Movie` for the single-record endpoints (`none` when the handler
returns without writing a body, which the HTTP stack turns into a 200
response with an empty body, since no handler ever calls WriteHeader) and
`List Movie` for the list endpoint.  `json.NewDecoder(r.Body).Decode`
is best-effort: a parseable body yields its Movie value, an unparseable
one leaves the target at the Go zero value; the decode outcome is passed
in as an `Option Movie`.  `rand.Intn(1000000)` is passed in as a `Nat`
argument; its range is a hypothesis where a claim needs it.
-/

namespace GoCrud

/-- Director record, from the Go struct: fields `firstname`, `lastname`. -/
structure Director where
  firstname : String
  lastname : String
deriving DecidableEq

/-- Movie record, from the Go struct.  The Go field `Director *Director` is a
nullable pointer, embedded as `Option Director`. -/
structure Movie where
  id : String
  isbn : String
  title : String
  director : Option Director
deriving DecidableEq

/-- The Go zero value of `Movie`: empty strings and a nil director pointer.
This is what `var movie Movie` declares before any decode. -/
def zeroMovie : Movie := ⟨"", "", "", none⟩

/-- Result of `json.NewDecoder(r.Body).Decode(&movie)` on a zero-valued
target: a parseable body yields the decoded Movie, an unparseable body
leaves the target zero-valued (the error is ignored by every caller). -/
def decodeBody : Option Movie → Movie
  | some m => m
  | none => zeroMovie

/-- Handler `getMovies` (GET /movies): encodes the whole slice to the
response and does not touch it. -/
def getMovies (movies : List Movie) : List Movie × List Movie :=
  (movies, movies)

/-- The scan loop of handler `getMovie`: walk the slice in index order and
on the first element whose ID equals the path parameter, encode it and
return; falling off the loop writes nothing. -/
def getMovieScan : List Movie → String → Option Movie
  | [], _ => none
  | m :: ms, id => if m.id == id then some m else getMovieScan ms id

/-- Handler `getMovie` (GET /movies/\x7bid\x7d): the scan above; the slice
is never reassigned. -/
def getMovie (movies : List Movie) (id : String) : List Movie × Option Movie :=
  (movies, getMovieScan movies id)

/-- The scan loop of handler `deleteMovie`: on the first element whose ID
equals the path parameter, `movies = append(movies[:i], movies[i+1:]...)`
and break; falling off the loop leaves the slice as it was. -/
def deleteMovieScan : List Movie → String → List Movie
  | [], _ => []
  | m :: ms, id => if m.id == id then ms else m :: deleteMovieScan ms id

/-- Handler `deleteMovie` (DELETE /movies/\x7bid\x7d): the removal scan;
no response body is ever written. -/
def deleteMovie (movies : List Movie) (id : String) : List Movie × Option Movie :=
  (deleteMovieScan movies id, none)

/-- Handler `createMovie` (POST /movies): decode the body (best-effort),
overwrite its ID with `strconv.Itoa(rand.Intn(1000000))` — here `toString n`
for the drawn `n` — append to the slice and encode the record. -/
def createMovie (movies : List Movie) (body : Option Movie) (n : Nat) :
    List Movie × Option Movie :=
  let movie := decodeBody body
  let movie := { movie with id := toString n }
  (movies ++ [movie], some movie)

/-- The scan loop of handler `updateMovie`: on the first element whose ID
equals the path parameter, remove it, then append the new record (the
decoded body with its ID forced to the path parameter) and encode it;
falling off the loop leaves the slice as it was and writes nothing. -/
def updateMovieScan : List Movie → String → Movie → List Movie × Option Movie
  | [], _, _ => ([], none)
  | m :: ms, id, newMovie =>
    if m.id == id then
      (ms ++ [newMovie], some newMovie)
    else
      let r := updateMovieScan ms id newMovie
      (m :: r.1, r.2)

/-- Handler `updateMovie` (PUT /movies/\x7bid\x7d): the decoded body with
`movie.ID = params["id"]` forced, fed through the scan. -/
def updateMovie (movies : List Movie) (id : String) (body : Option Movie) :
    List Movie × Option Movie :=
  updateMovieScan movies id { decodeBody body with id := id }

/-- The collection as `main` seeds it: two appends onto the nil slice. -/
def seedMovies : List Movie :=
  ([] ++ [⟨"1", "123456", "Movie One", some ⟨"Lebron", "James"⟩⟩])
    ++ [⟨"2", "654321", "Movie Two", some ⟨"Joe", "Biden"⟩⟩]

/-! Helper lemmas characterising the scans. -/

lemma deleteMovieScan_eq_eraseP (movies : List Movie) (id : String) :
    deleteMovieScan movies id = movies.eraseP (fun m => m.id == id) := by
  induction movies with
  | nil => rfl
  | cons m ms ih =>
    by_cases h : m.id = id
    · simp [deleteMovieScan, List.eraseP_cons, h]
    · simp [deleteMovieScan, List.eraseP_cons, h, ih]

lemma getMovieScan_eq_find? (movies : List Movie) (id : String) :
    getMovieScan movies id = movies.find? (fun m => m.id == id) := by
  induction movies with
  | nil => rfl
  | cons m ms ih =>
    by_cases h : m.id = id
    · have hb : (m.id == id) = true := by simp [h]
      simp [getMovieScan, List.find?, hb]
    · have hb : (m.id == id) = false := by simp [h]
      simp [getMovieScan, List.find?, hb, ih]

lemma updateMovieScan_pos (movies : List Movie) (id : String) (newMovie : Movie)
    (h : ∃ m ∈ movies, m.id = id) :
    updateMovieScan movies id newMovie =
      (movies.eraseP (fun m => m.id == id) ++ [newMovie], some newMovie) := by
  induction movies with
  | nil => simp at h
  | cons m ms ih =>
    by_cases hm : m.id = id
    · simp [updateMovieScan, hm, List.eraseP_cons]
    · obtain ⟨x, hx, hxid⟩ := h
      cases hx with
      | head => exact absurd hxid hm
      | tail _ hx =>
        simp [updateMovieScan, hm, List.eraseP_cons, ih ⟨x, hx, hxid⟩]

lemma updateMovieScan_neg (movies : List Movie) (id : String) (newMovie : Movie)
    (h : ∀ m ∈ movies, m.id ≠ id) :
    updateMovieScan movies id newMovie = (movies, none) := by
  induction movies with
  | nil => rfl
  | cons m ms ih =>
    have hm : m.id ≠ id := h m (List.mem_cons_self m ms)
    simp [updateMovieScan, hm, ih fun x hx => h x (List.mem_cons_of_mem m hx)]

lemma deleteMovieScan_all_ne (movies : List Movie) (id : String)
    (h : movies.countP (fun m => m.id == id) ≤ 1) :
    ∀ m ∈ deleteMovieScan movies id, m.id ≠ id := by
  induction movies with
  | nil => simp [deleteMovieScan]
  | cons a ms ih =>
    by_cases ha : a.id = id
    · have hb : (a.id == id) = true := by simp [ha]
      simp [List.countP_cons, hb] at h
      intro m hm
      rw [deleteMovieScan] at hm
      simp only [hb, if_true] at hm
      exact h m hm
    · have hb : (a.id == id) = false := by simp [ha]
      have h1 : ms.countP (fun m => m.id == id) ≤ 1 := by
        simp [List.countP_cons, hb] at h
        omega
      intro m hm
      rw [deleteMovieScan] at hm
      simp [hb] at hm
      cases hm with
      | inl h2 => rw [h2]; exact ha
      | inr h2 => exact ih h1 m h2

lemma deleteMovieScan_countP (movies : List Movie) (id : String) :
    movies.countP (fun m => m.id == id) - 1 ≤
      (deleteMovieScan movies id).countP (fun m => m.id == id) := by
  induction movies with
  | nil => simp [deleteMovieScan]
  | cons a ms ih =>
    by_cases ha : a.id = id
    · have hb : (a.id == id) = true := by simp [ha]
      rw [deleteMovieScan]
      simp [hb, List.countP_cons]
    · have hb : (a.id == id) = false := by simp [ha]
      rw [deleteMovieScan]
      simp [hb, List.countP_cons]
      omega

lemma updateMovieScan_map_id_perm (movies : List Movie) (id : String)
    (newMovie : Movie) (h : newMovie.id = id) :
    ((updateMovieScan movies id newMovie).1.map Movie.id).Perm
      (movies.map Movie.id) := by
  induction movies with
  | nil => simp [updateMovieScan]
  | cons m ms ih =>
    by_cases hm : m.id = id
    · have hb : (m.id == id) = true := by simp [hm]
      simp only [updateMovieScan, hb, if_true, List.map_append, List.map_cons]
      rw [h, hm]
      exact List.perm_append_singleton id (ms.map Movie.id)
    · have hb : (m.id == id) = false := by simp [hm]
      simp only [updateMovieScan, hb, if_false, List.map_cons]
      exact ih.cons m.id

/-- C1: a PUT on a path id present in the collection removes the first
record carrying that id from its position, builds the new record from the
decoded body with its id forced to the path parameter, appends it at the
end of the collection (other records keep their relative order, which
`List.eraseP` preserves), and the response body is that appended record. -/
theorem updateMovie_found_spec (movies : List Movie) (id : String)
    (body : Option Movie) (h : ∃ m ∈ movies, m.id = id) :
    updateMovie movies id body =
      (movies.eraseP (fun m => m.id == id) ++
         [{ decodeBody body with id := id }],
       some { decodeBody body with id := id }) :=
  updateMovieScan_pos movies id _ h

/-- Witness for C1: updating id "1" in the seed state with a body carrying
a different id; record "1" moves to the end and keeps id "1". -/
theorem updateMovie_found_spec_witness :
    (∃ m ∈ seedMovies, m.id = "1") ∧
    updateMovie seedMovies "1" (some ⟨"9", "999", "New", none⟩) =
      (seedMovies.eraseP (fun m => m.id == "1") ++
         [{ decodeBody (some ⟨"9", "999", "New", none⟩) with id := "1" }],
       some { decodeBody (some ⟨"9", "999", "New", none⟩) with id := "1" }) :=
  ⟨by decide, updateMovie_found_spec seedMovies "1"
      (some ⟨"9", "999", "New", none⟩) (by decide)⟩

/-- C2: a POST discards any caller-supplied id: the stored record is the
decoded body with its id overwritten by the decimal rendering of the drawn
integer, appended at the end of the collection (length grows by one), and
the response body is that record. -/
theorem createMovie_spec (movies : List Movie) (body : Option Movie)
    (n : Nat) (h : n < 1000000) :
    createMovie movies body n =
      (movies ++ [{ decodeBody body with id := toString n }],
       some { decodeBody body with id := toString n }) ∧
    (createMovie movies body n).1.length = movies.length + 1 :=
  ⟨rfl, by simp [createMovie]⟩

/-- Witness for C2: creating with a body that carries id "abc" and the
draw 42; the stored id is "42". -/
theorem createMovie_spec_witness :
    42 < 1000000 ∧
    (createMovie seedMovies (some ⟨"abc", "999", "New", none⟩) 42 =
      (seedMovies ++
         [{ decodeBody (some ⟨"abc", "999", "New", none⟩) with
              id := toString 42 }],
       some { decodeBody (some ⟨"abc", "999", "New", none⟩) with
                id := toString 42 }) ∧
     (createMovie seedMovies (some ⟨"abc", "999", "New", none⟩) 42).1.length =
       seedMovies.length + 1) :=
  ⟨by decide, createMovie_spec seedMovies (some ⟨"abc", "999", "New", none⟩)
      42 (by decide)⟩

/-- C3: a GET on a path id leaves the collection unchanged and its response
body is the first record (in scan order) whose id equals the parameter;
when no record matches, no body is written. -/
theorem getMovie_spec (movies : List Movie) (id : String) :
    (getMovie movies id).1 = movies ∧
    (getMovie movies id).2 = movies.find? (fun m => m.id == id) ∧
    ((∀ m ∈ movies, m.id ≠ id) → (getMovie movies id).2 = none) := by
  refine ⟨rfl, getMovieScan_eq_find? movies id, fun h => ?_⟩
  show getMovieScan movies id = none
  rw [getMovieScan_eq_find?, List.find?_eq_none]
  intro m hm
  simp [h m hm]

/-- Witness for C3: getting the absent id "999" from the seed state leaves
it unchanged and returns no body. -/
theorem getMovie_spec_witness :
    (getMovie seedMovies "999").1 = seedMovies ∧
    (getMovie seedMovies "999").2 = none :=
  ⟨(getMovie_spec seedMovies "999").1,
   (getMovie_spec seedMovies "999").2.2 (by decide)⟩

/-- C4: a DELETE on a path id present in the collection removes the first
record carrying that id (remaining records keep their relative order, as
`List.eraseP` removes exactly one element in place), the collection shrinks
by exactly one, and no response body is written. -/
theorem deleteMovie_found_spec (movies : List Movie) (id : String)
    (h : ∃ m ∈ movies, m.id = id) :
    deleteMovie movies id = (movies.eraseP (fun m => m.id == id), none) ∧
    (deleteMovie movies id).1.length = movies.length - 1 := by
  obtain ⟨m, hm, hid⟩ := h
  refine ⟨by simp [deleteMovie, deleteMovieScan_eq_eraseP], ?_⟩
  show (deleteMovieScan movies id).length = movies.length - 1
  rw [deleteMovieScan_eq_eraseP]
  exact List.length_eraseP_of_mem hm (by simp [hid])

/-- Witness for C4: deleting id "2" from the seed state. -/
theorem deleteMovie_found_spec_witness :
    (∃ m ∈ seedMovies, m.id = "2") ∧
    (deleteMovie seedMovies "2" =
       (seedMovies.eraseP (fun m => m.id == "2"), none) ∧
     (deleteMovie seedMovies "2").1.length = seedMovies.length - 1) :=
  ⟨by decide, deleteMovie_found_spec seedMovies "2" (by decide)⟩

/-- C5: a PUT on a path id absent from the collection mutates nothing and
writes no response body. -/
theorem updateMovie_notFound_spec (movies : List Movie) (id : String)
    (body : Option Movie) (h : ∀ m ∈ movies, m.id ≠ id) :
    updateMovie movies id body = (movies, none) :=
  updateMovieScan_neg movies id _ h

/-- Witness for C5: updating the absent id "999" in the seed state. -/
theorem updateMovie_notFound_spec_witness :
    (∀ m ∈ seedMovies, m.id ≠ "999") ∧
    updateMovie seedMovies "999" (some ⟨"9", "999", "New", none⟩) =
      (seedMovies, none) :=
  ⟨by decide, updateMovie_notFound_spec seedMovies "999"
      (some ⟨"9", "999", "New", none⟩) (by decide)⟩

/-- Two distinct records sharing the id "7".  Duplicate ids can arise in the
collection because createMovie never checks its generated id against
existing records. -/
def dupA : Movie := ⟨"7", "123", "Dup A", none⟩

/-- Second record with the duplicated id "7". -/
def dupB : Movie := ⟨"7", "456", "Dup B", none⟩

/-- Counterexample for C6: on a collection holding two records with id "7",
deleting id "7" twice is not the same as deleting it once — the second
DELETE removes the second duplicate as well. -/
theorem deleteMovie_twice_ne_once :
    deleteMovie (deleteMovie [dupA, dupB] "7").1 "7" ≠
      deleteMovie [dupA, dupB] "7" := by
  decide

/-- C6 (amended): deleting an id absent from the collection leaves it
unchanged and writes no body; and provided at most one record carries the
given id, performing the DELETE twice in succession yields the same state
and response as performing it once. -/
theorem deleteMovie_idem (movies : List Movie) (id : String)
    (h : movies.countP (fun m => m.id == id) ≤ 1) :
    ((∀ m ∈ movies, m.id ≠ id) → deleteMovie movies id = (movies, none)) ∧
    deleteMovie (deleteMovie movies id).1 id = deleteMovie movies id := by
  constructor
  · intro hall
    have : deleteMovieScan movies id = movies := by
      rw [deleteMovieScan_eq_eraseP]
      exact List.eraseP_of_forall_not fun a ha => by simp [hall a ha]
    simp [deleteMovie, this]
  · have h2 := deleteMovieScan_all_ne movies id h
    have : deleteMovieScan (deleteMovieScan movies id) id
        = deleteMovieScan movies id := by
      rw [deleteMovieScan_eq_eraseP (deleteMovieScan movies id) id]
      exact List.eraseP_of_forall_not fun a ha => by simp [h2 a ha]
    simp [deleteMovie, this]

/-- Witness for C6: deleting the unique id "2" twice from the seed state. -/
theorem deleteMovie_idem_witness :
    seedMovies.countP (fun m => m.id == "2") ≤ 1 ∧
    (((∀ m ∈ seedMovies, m.id ≠ "2") →
        deleteMovie seedMovies "2" = (seedMovies, none)) ∧
     deleteMovie (deleteMovie seedMovies "2").1 "2" =
       deleteMovie seedMovies "2") :=
  ⟨by decide, deleteMovie_idem seedMovies "2" (by decide)⟩

/-- C7: a POST whose body fails to parse is not rejected: the handler
proceeds with the zero-valued Movie (empty isbn and title, nil director),
assigns the generated id, appends the record and returns it. -/
theorem createMovie_malformed (movies : List Movie) (n : Nat)
    (h : n < 1000000) :
    createMovie movies none n =
      (movies ++ [⟨toString n, "", "", none⟩],
       some ⟨toString n, "", "", none⟩) :=
  rfl

/-- Witness for C7: a malformed body against the seed state with the
draw 3. -/
theorem createMovie_malformed_witness :
    3 < 1000000 ∧
    createMovie seedMovies none 3 =
      (seedMovies ++ [⟨toString 3, "", "", none⟩],
       some ⟨toString 3, "", "", none⟩) :=
  ⟨by decide, createMovie_malformed seedMovies 3 (by decide)⟩

/-- C8: the collection seeded by main holds exactly the two seed records in
insertion order, and GET /movies serializes exactly that sequence without
touching the collection. -/
theorem seed_state_spec :
    seedMovies =
      [⟨"1", "123456", "Movie One", some ⟨"Lebron", "James"⟩⟩,
       ⟨"2", "654321", "Movie Two", some ⟨"Joe", "Biden"⟩⟩] ∧
    getMovies seedMovies = (seedMovies, seedMovies) :=
  ⟨rfl, rfl⟩

/-- C9: a PUT, matching or not and whatever the body carries, preserves the
multiset of id values in the collection: the list of ids after the request
is a permutation of the list of ids before it. -/
theorem updateMovie_id_multiset (movies : List Movie) (id : String)
    (body : Option Movie) :
    ((updateMovie movies id body).1.map Movie.id).Perm
      (movies.map Movie.id) :=
  updateMovieScan_map_id_perm movies id _ rfl

/-- C10: with two or more records carrying the same id, a DELETE removes
only the earliest one (the collection loses at most one record), and a
subsequent GET for that id still returns a record carrying it. -/
theorem deleteMovie_duplicate (movies : List Movie) (id : String)
    (h : 2 ≤ movies.countP (fun m => m.id == id)) :
    (deleteMovie movies id).1 = movies.eraseP (fun m => m.id == id) ∧
    movies.length - 1 ≤ (deleteMovie movies id).1.length ∧
    ∃ m, (getMovie (deleteMovie movies id).1 id).2 = some m ∧ m.id = id := by
  refine ⟨by simp [deleteMovie, deleteMovieScan_eq_eraseP], ?_, ?_⟩
  · show movies.length - 1 ≤ (deleteMovieScan movies id).length
    rw [deleteMovieScan_eq_eraseP, List.length_eraseP]
    split
    · omega
    · omega
  · have hcount := deleteMovieScan_countP movies id
    have h1 : 0 < (deleteMovieScan movies id).countP (fun m => m.id == id) := by
      omega
    have hex : ∃ x ∈ deleteMovieScan movies id, (x.id == id) = true := by
      simpa using List.countP_pos_iff.mp h1
    show ∃ m, getMovieScan (deleteMovieScan movies id) id = some m ∧ m.id = id
    rw [getMovieScan_eq_find?]
    have hsome :
        ((deleteMovieScan movies id).find? (fun m => m.id == id)).isSome := by
      rw [List.find?_isSome]
      exact hex
    obtain ⟨m, hm⟩ := Option.isSome_iff_exists.mp hsome
    refine ⟨m, hm, ?_⟩
    have := List.find?_some hm
    simpa using this

/-- Witness for C10: the two-duplicate collection; deleting id "7" leaves
the second record, and getting id "7" still finds it. -/
theorem deleteMovie_duplicate_witness :
    2 ≤ [dupA, dupB].countP (fun m => m.id == "7") ∧
    ((deleteMovie [dupA, dupB] "7").1 =
       [dupA, dupB].eraseP (fun m => m.id == "7") ∧
     [dupA, dupB].length - 1 ≤ (deleteMovie [dupA, dupB] "7").1.length ∧
     ∃ m, (getMovie (deleteMovie [dupA, dupB] "7").1 "7").2 = some m ∧
       m.id = "7") :=
  ⟨by decide, deleteMovie_duplicate [dupA, dupB] "7" (by decide)⟩

end GoCrud
